import Mathlib

/-!
Shallow embedding of the Financial Calculation & Derived-State Synchronization
Engine of the lifesmart-calculator repository.

JavaScript numbers are modelled as exact rationals (`ℚ`).  `Math.round` is
`jsRound` below: JavaScript rounds half toward positive infinity,
`Math.round x = ⌊x + 1/2⌋`.  A computation whose JavaScript evaluation is
`NaN` (the only source in this code is `0 / 0` inside
`InvestmentChart.calculateInvestmentGrowth` when the monthly rate is zero) is
modelled as `none : Option ℚ`; every other value is `some` of its exact value.
-/

namespace LifeSmart

/-- JavaScript `Math.round`: round half toward positive infinity. -/
def jsRound (q : ℚ) : ℤ := ⌊q + 1/2⌋

/-- Evaluation rule for `jsRound` at a concrete rational. -/
theorem jsRound_eq {q : ℚ} {k : ℤ} (h1 : (k : ℚ) ≤ q + 1/2) (h2 : q + 1/2 < k + 1) :
    jsRound q = k :=
  Int.floor_eq_iff.mpr ⟨h1, h2⟩

/-- On an exact integer, `jsRound` is the identity. -/
theorem jsRound_intCast (k : ℤ) : jsRound ((k : ℚ)) = k := by
  unfold jsRound
  rw [Int.floor_int_add]
  norm_num [Int.floor_eq_iff]

/-- The state held by `CreditCardCalculator` (`inputs` in the source):
monthly spend, percentage of spend paid off, and APR. -/
structure CalculatorInputs where
  monthlySpend : ℚ
  balanceCarriedPercent : ℚ
  apr : ℚ

/-- The investment-projection state (`investmentInputs` in the source);
`none` models the `null` stored when the text field is emptied. -/
structure InvestmentInputs where
  timePeriod : Option ℚ
  returnRate : Option ℚ

/-- Source line 96: `paidOffBalance = inputs.monthlySpend * (inputs.balanceCarriedPercent / 100)`. -/
def paidOffBalance (s : CalculatorInputs) : ℚ :=
  s.monthlySpend * (s.balanceCarriedPercent / 100)

/-- Source line 97: `carriedBalance = inputs.monthlySpend - paidOffBalance`. -/
def carriedBalance (s : CalculatorInputs) : ℚ :=
  s.monthlySpend - paidOffBalance s

/-- Source line 98: `annualInterest = carriedBalance * (inputs.apr / 100)`. -/
def annualInterest (s : CalculatorInputs) : ℚ :=
  carriedBalance s * (s.apr / 100)

/-- Source line 99: `monthlySavings = annualInterest / 12`. -/
def monthlySavings (s : CalculatorInputs) : ℚ :=
  annualInterest s / 12

/-- Source line 119: `totalInterestSaved = monthlySavings * 12 * investmentYears`. -/
def totalInterestSaved (s : CalculatorInputs) (investmentYears : ℚ) : ℚ :=
  monthlySavings s * 12 * investmentYears

/-- The `monthlySpend` input `onChange` (lines 173-176 mobile, 421-424 desktop,
identical): `handleInputChange('monthlySpend', Math.max(0, value))`. -/
def setMonthlySpend (s : CalculatorInputs) (value : ℚ) : CalculatorInputs :=
  { s with monthlySpend := max 0 value }

/-- The balance-carried slider `onChange` (lines 246, 491): the raw numeric
value is stored with no clamping (the range input's own min/max are layout). -/
def setBalanceCarriedPercent (s : CalculatorInputs) (value : ℚ) : CalculatorInputs :=
  { s with balanceCarriedPercent := value }

/-- The desktop paid-off-dollar input `onChange` (lines 451-460):
`Math.round((dollarAmount / monthlySpend) * 100)` clamped by
`Math.min(100, Math.max(0, percentage))` when `monthlySpend > 0`, else `0`. -/
def setPaidOffDollarDesktop (s : CalculatorInputs) (dollarAmount : ℚ) : CalculatorInputs :=
  { s with balanceCarriedPercent :=
      if 0 < s.monthlySpend then
        min 100 (max 0 ((jsRound (dollarAmount / s.monthlySpend * 100) : ℤ) : ℚ))
      else 0 }

/-- The mobile paid-off-dollar input `onChange` (lines 202-206):
`monthlySpend > 0 ? Math.min(100, (value / monthlySpend) * 100) : 0` —
no rounding and no lower clamp, unlike the desktop handler. -/
def setPaidOffDollarMobile (s : CalculatorInputs) (value : ℚ) : CalculatorInputs :=
  { s with balanceCarriedPercent :=
      if 0 < s.monthlySpend then min 100 (value / s.monthlySpend * 100) else 0 }

/-- The desktop APR input `onChange` (lines 523-526): `Math.max(0, value)`. -/
def setAprDesktop (s : CalculatorInputs) (value : ℚ) : CalculatorInputs :=
  { s with apr := max 0 value }

/-- The mobile APR input `onChange` (lines 265-268):
`Math.max(0, Math.min(100, value))`. -/
def setAprMobile (s : CalculatorInputs) (value : ℚ) : CalculatorInputs :=
  { s with apr := max 0 (min 100 value) }

/-- The timePeriod input `onChange` (lines 573-577): the parsed value (or
`null` for the empty string) is stored unchanged — no clamping, negative and
fractional horizons pass through. -/
def setTimePeriod (inv : InvestmentInputs) (value : Option ℚ) : InvestmentInputs :=
  { inv with timePeriod := value }

/-- The input invariant stated by the spec (§3):
`balanceCarriedPercent ∈ [0,100]`, `monthlySpend ≥ 0`, `apr ≥ 0`. -/
def Invariant (s : CalculatorInputs) : Prop :=
  0 ≤ s.balanceCarriedPercent ∧ s.balanceCarriedPercent ≤ 100 ∧
    0 ≤ s.monthlySpend ∧ 0 ≤ s.apr

/-- `CreditCardCalculator.calculateInvestmentFinalValue` (lines 102-114):
`monthlyRate = rate / 100 / 12`, `totalMonths = years * 12`; an explicit
zero-rate branch returns `Math.round(monthly * totalMonths)`, otherwise
`Math.round(monthly * ((1 + monthlyRate) ^ totalMonths - 1) / monthlyRate)`. -/
def calculateInvestmentFinalValue (years : ℕ) (rate monthly : ℚ) : ℚ :=
  if rate = 0 ∨ rate / 100 / 12 = 0 then
    ((jsRound (monthly * ((years * 12 : ℕ) : ℚ)) : ℤ) : ℚ)
  else
    ((jsRound (monthly *
      (((1 + rate / 100 / 12) ^ (years * 12) - 1) / (rate / 100 / 12))) : ℤ) : ℚ)

/-- `InvestmentChart.calculateInvestmentGrowth` (lines 66-74): the same
annuity formula but with NO zero-rate branch; when `monthlyRate = 0` the
JavaScript evaluation is `monthlyContribution * ((1 ^ totalMonths - 1) / 0)
= 0 / 0 = NaN` and `Math.round(NaN) = NaN`, modelled here as `none`. -/
def calculateInvestmentGrowth (annualRate monthlyContribution : ℚ) (years : ℕ) : Option ℚ :=
  if annualRate / 100 / 12 = 0 then none
  else some ((jsRound (monthlyContribution *
    (((1 + annualRate / 100 / 12) ^ (years * 12) - 1) / (annualRate / 100 / 12))) : ℤ) : ℚ)

/-- The integer years visited by the loop `for (let year = 0; year <= maxYears;
year++)` in `generateChartData` (line 82): `0, 1, …, ⌊maxYears⌋`, empty when
`maxYears < 0`. -/
def chartYearList (maxYears : ℚ) : List ℕ :=
  List.range (⌊maxYears⌋ + 1).toNat

/-- `InvestmentChart.generateChartData` (lines 77-89): the three parallel
arrays `labels` (years), `data` (compounded values) and `totalInvested`
(`monthlyContribution * 12 * year`). -/
def generateChartData (maxYears annualRate monthlyContribution : ℚ) :
    List ℕ × List (Option ℚ) × List ℚ :=
  (chartYearList maxYears,
   (chartYearList maxYears).map (fun year => calculateInvestmentGrowth annualRate monthlyContribution year),
   (chartYearList maxYears).map (fun (year : ℕ) => monthlyContribution * 12 * (year : ℚ)))

/-- Source line 92: `finalValue = data[data.length - 1] || 0`.  The `|| 0`
fallback maps both `undefined` (empty array) and `NaN` to `0`. -/
def chartFinalValue (maxYears annualRate monthlyContribution : ℚ) : ℚ :=
  (((generateChartData maxYears annualRate monthlyContribution).2.1.getLast?).getD none).getD 0

/-- Source line 93: `finalInvested = totalInvested[totalInvested.length - 1] || 0`. -/
def chartFinalInvested (maxYears annualRate monthlyContribution : ℚ) : ℚ :=
  ((generateChartData maxYears annualRate monthlyContribution).2.2.getLast?).getD 0

/-- Source line 94: `totalGains = finalValue - finalInvested`. -/
def chartTotalGains (maxYears annualRate monthlyContribution : ℚ) : ℚ :=
  chartFinalValue maxYears annualRate monthlyContribution
    - chartFinalInvested maxYears annualRate monthlyContribution

/-- Modelled from the spec (§4.2 numeric semantics): round half away from
zero, the semantics the spec claims for all currency rounding; used to compare
against the source's `Math.round`. -/
def roundHalfAwayFromZero (q : ℚ) : ℤ :=
  if 0 ≤ q then ⌊q + 1/2⌋ else -⌊-q + 1/2⌋

/-- C5: for every input state the derived scalars satisfy the spec equations
`paidOffBalance = monthlySpend × balanceCarriedPercent / 100`,
`carriedBalance = monthlySpend − paidOffBalance`,
`annualInterest = carriedBalance × apr / 100`, `monthlySavings = annualInterest / 12`;
and the worked example `monthlySpend=2000, balanceCarriedPercent=50, apr=23`
gives `paidOffBalance=1000`, `carriedBalance=1000`, `annualInterest=230`,
`monthlySavings = 115/6 ≈ 19.17` (within 1/100 of 19.17). -/
theorem c5_derived_scalars :
    (∀ s : CalculatorInputs,
      paidOffBalance s = s.monthlySpend * s.balanceCarriedPercent / 100 ∧
      carriedBalance s = s.monthlySpend - paidOffBalance s ∧
      annualInterest s = carriedBalance s * s.apr / 100 ∧
      monthlySavings s = annualInterest s / 12) ∧
    paidOffBalance ⟨2000, 50, 23⟩ = 1000 ∧
    carriedBalance ⟨2000, 50, 23⟩ = 1000 ∧
    annualInterest ⟨2000, 50, 23⟩ = 230 ∧
    monthlySavings ⟨2000, 50, 23⟩ = 115/6 ∧
    |monthlySavings ⟨2000, 50, 23⟩ - 1917/100| < 1/100 := by
  refine ⟨fun s => ⟨by unfold paidOffBalance; ring, rfl,
      by unfold annualInterest; ring, rfl⟩, ?_, ?_, ?_, ?_, ?_⟩ <;>
    simp only [paidOffBalance, carriedBalance, annualInterest, monthlySavings] <;>
    norm_num [abs_lt]

/-- C2 evaluation at the failing input: the spec promises that the
annuity-growth computation with `monthlyRate = 0` takes an explicit branch on
every code path, but `InvestmentChart.calculateInvestmentGrowth` has no such
branch and evaluates to NaN (`none`) at rate 0, while the guarded
`calculateInvestmentFinalValue` returns the linear sum; the dollar-to-percent
conversion at `monthlySpend = 0` does return 0 in both entry points. -/
theorem c2_code_eval :
    calculateInvestmentGrowth 0 (115/6) 1 = none ∧
    calculateInvestmentFinalValue 1 0 (115/6) = 230 ∧
    (setPaidOffDollarDesktop ⟨0, 50, 23⟩ 500).balanceCarriedPercent = 0 ∧
    (setPaidOffDollarMobile ⟨0, 50, 23⟩ 500).balanceCarriedPercent = 0 := by
  refine ⟨?_, ?_, ?_, ?_⟩
  · unfold calculateInvestmentGrowth
    rw [if_pos (by norm_num)]
  · unfold calculateInvestmentFinalValue
    rw [if_pos (Or.inl rfl)]
    have h : ((115 : ℚ)/6) * ((1 * 12 : ℕ) : ℚ) = ((230 : ℤ) : ℚ) := by
      push_cast; norm_num
    rw [h, jsRound_intCast]
    norm_num
  · simp only [setPaidOffDollarDesktop]
    rw [if_neg (by norm_num : ¬ (0:ℚ) < (0:ℚ))]
  · simp only [setPaidOffDollarMobile]
    rw [if_neg (by norm_num : ¬ (0:ℚ) < (0:ℚ))]

/-- C7 amended: `finalValue(years, 0, m)` equals `round(m × 12 × years)` for
every real `m`, and equals `m × years × 12` exactly whenever that product is
an integer (the §8 equation as stated fails for fractional products, see the
counterexample). -/
theorem c7_zero_rate (y : ℕ) (m : ℚ) :
    calculateInvestmentFinalValue y 0 m = ((jsRound (m * ((y * 12 : ℕ) : ℚ)) : ℤ) : ℚ) ∧
    (∀ k : ℤ, m * ((y * 12 : ℕ) : ℚ) = (k : ℚ) →
      calculateInvestmentFinalValue y 0 m = m * ((y * 12 : ℕ) : ℚ)) := by
  constructor
  · unfold calculateInvestmentFinalValue
    rw [if_pos (Or.inl rfl)]
  · intro k hk
    unfold calculateInvestmentFinalValue
    rw [if_pos (Or.inl rfl), hk, jsRound_intCast]

/-- C7 witness: the §8 example `finalValue(10, 0, 500) = 60000 = 500 × 120`. -/
theorem c7_zero_rate_witness :
    calculateInvestmentFinalValue 10 0 500
        = ((jsRound ((500 : ℚ) * ((10 * 12 : ℕ) : ℚ)) : ℤ) : ℚ) ∧
    calculateInvestmentFinalValue 10 0 500 = (500 : ℚ) * ((10 * 12 : ℕ) : ℚ) :=
  ⟨(c7_zero_rate 10 500).1, (c7_zero_rate 10 500).2 60000 (by push_cast; norm_num)⟩

/-- C7 counterexample: at `years = 1`, `m = 1/24 ≥ 0` the code returns
`round(1/2) = 1`, not the exact linear sum `1/2` claimed by the §8 equation. -/
theorem c7_zero_rate_counterexample :
    calculateInvestmentFinalValue 1 0 (1/24) = 1 ∧
    (1/24 : ℚ) * ((1 * 12 : ℕ) : ℚ) = 1/2 ∧
    (1 : ℚ) ≠ 1/2 := by
  refine ⟨?_, by push_cast; norm_num, by norm_num⟩
  unfold calculateInvestmentFinalValue
  rw [if_pos (Or.inl rfl)]
  have h : (1/24 : ℚ) * ((1 * 12 : ℕ) : ℚ) = 1/2 := by push_cast; norm_num
  have hr : jsRound (1/2 : ℚ) = 1 := jsRound_eq (by norm_num) (by norm_num)
  rw [h, hr]
  norm_num

/-- C8 amended: only the projection values are rounded at the point of
computation — `calculateInvestmentFinalValue` and every `some` value of
`calculateInvestmentGrowth` are exact integers, and JavaScript `Math.round`
agrees with round-half-away-from-zero on non-negative arguments; the scalars
`annualInterest`, `monthlySavings`, `totalInterestSaved` are not rounded
(see the counterexample). -/
theorem c8_rounding :
    (∀ (y : ℕ) (rate m : ℚ), ∃ k : ℤ, calculateInvestmentFinalValue y rate m = (k : ℚ)) ∧
    (∀ (rate m : ℚ) (y : ℕ) (v : ℚ),
      calculateInvestmentGrowth rate m y = some v → ∃ k : ℤ, v = (k : ℚ)) ∧
    (∀ q : ℚ, 0 ≤ q → jsRound q = roundHalfAwayFromZero q) := by
  refine ⟨?_, ?_, ?_⟩
  · intro y rate m
    unfold calculateInvestmentFinalValue
    by_cases h : rate = 0 ∨ rate / 100 / 12 = 0
    · rw [if_pos h]; exact ⟨_, rfl⟩
    · rw [if_neg h]; exact ⟨_, rfl⟩
  · intro rate m y v hv
    unfold calculateInvestmentGrowth at hv
    by_cases h : rate / 100 / 12 = 0
    · rw [if_pos h] at hv
      exact absurd hv (by simp)
    · rw [if_neg h] at hv
      exact ⟨_, (Option.some_inj.mp hv).symm⟩
  · intro q hq
    unfold jsRound roundHalfAwayFromZero
    rw [if_pos hq]

/-- C8 witness: the headline projection value is an integer, and `Math.round`
matches half-away-from-zero on the non-negative input `19/10`. -/
theorem c8_rounding_witness :
    (∃ k : ℤ, calculateInvestmentFinalValue 10 9 500 = (k : ℚ)) ∧
    jsRound (19/10) = roundHalfAwayFromZero (19/10) :=
  ⟨c8_rounding.1 10 9 500, c8_rounding.2.2 (19/10) (by norm_num)⟩

/-- C8 counterexample: `annualInterest` (and `totalInterestSaved`) are NOT
rounded to a whole unit at the point of computation: at
`monthlySpend=100, balanceCarriedPercent=50, apr=23` the code produces the
non-integral `23/2`, which differs from its own rounding. -/
theorem c8_rounding_counterexample :
    annualInterest ⟨100, 50, 23⟩ = 23/2 ∧
    annualInterest ⟨100, 50, 23⟩ ≠ ((jsRound (annualInterest ⟨100, 50, 23⟩) : ℤ) : ℚ) ∧
    totalInterestSaved ⟨100, 50, 23⟩ 1 = 23/2 := by
  have h : annualInterest ⟨100, 50, 23⟩ = 23/2 := by
    unfold annualInterest carriedBalance paidOffBalance
    norm_num
  have hr : jsRound (23/2 : ℚ) = 12 := jsRound_eq (by norm_num) (by norm_num)
  refine ⟨h, ?_, ?_⟩
  · rw [h, hr]; norm_num
  · unfold totalInterestSaved monthlySavings
    rw [h]; ring

/-- C1 amended: the desktop dollar-edit entry point realises the claimed
conversion `clamp(round(value / monthlySpend × 100), 0, 100)` for
`monthlySpend > 0`, and round-trips `setPaidOffDollar(monthlySpend × pct / 100)`
to `balanceCarriedPercent = round(pct)` for `pct ∈ [0,100]`; the mobile entry
point does not (see the counterexample). -/
theorem c1_dollar_to_percent (s : CalculatorInputs) (v : ℚ) (hs : 0 < s.monthlySpend) :
    (setPaidOffDollarDesktop s v).balanceCarriedPercent
        = min 100 (max 0 ((jsRound (v / s.monthlySpend * 100) : ℤ) : ℚ)) ∧
    ∀ pct : ℚ, 0 ≤ pct → pct ≤ 100 →
      (setPaidOffDollarDesktop s (s.monthlySpend * pct / 100)).balanceCarriedPercent
        = ((jsRound pct : ℤ) : ℚ) := by
  constructor
  · simp only [setPaidOffDollarDesktop]
    rw [if_pos hs]
  · intro pct h0 h100
    have hne : s.monthlySpend ≠ 0 := ne_of_gt hs
    have harg : s.monthlySpend * pct / 100 / s.monthlySpend * 100 = pct := by
      field_simp
      ring
    have hk0 : (0 : ℤ) ≤ jsRound pct := by
      unfold jsRound
      exact Int.le_floor.mpr (by push_cast; linarith)
    have hk100 : jsRound pct ≤ 100 := by
      unfold jsRound
      exact Int.lt_add_one_iff.mp (Int.floor_lt.mpr (by push_cast; linarith))
    simp only [setPaidOffDollarDesktop]
    rw [if_pos hs, harg, max_eq_right (by exact_mod_cast hk0),
      min_eq_right (by exact_mod_cast hk100)]

/-- C1 witness: at `monthlySpend = 200`, editing the paid-off dollars to `1`
maps through the claimed formula, and the round-trip at `pct = 50` returns 50. -/
theorem c1_dollar_to_percent_witness :
    (setPaidOffDollarDesktop ⟨200, 50, 23⟩ 1).balanceCarriedPercent
        = min 100 (max 0 ((jsRound ((1 : ℚ) / 200 * 100) : ℤ) : ℚ)) ∧
    (setPaidOffDollarDesktop ⟨200, 50, 23⟩ (200 * 50 / 100)).balanceCarriedPercent
        = ((jsRound (50 : ℚ) : ℤ) : ℚ) :=
  ⟨(c1_dollar_to_percent ⟨200, 50, 23⟩ 1 (by norm_num)).1,
   (c1_dollar_to_percent ⟨200, 50, 23⟩ 1 (by norm_num)).2 50 (by norm_num) (by norm_num)⟩

/-- C1 counterexample: the claim does not hold for every dollar-to-percent
entry point — the mobile handler skips the rounding: at `monthlySpend = 200`,
`value = 1` it stores `1/2`, while `clamp(round(1/200 × 100), 0, 100) = 1`. -/
theorem c1_dollar_to_percent_counterexample :
    (setPaidOffDollarMobile ⟨200, 50, 23⟩ 1).balanceCarriedPercent = 1/2 ∧
    min 100 (max 0 ((jsRound ((1 : ℚ) / 200 * 100) : ℤ) : ℚ)) = 1 ∧
    (1/2 : ℚ) ≠ 1 := by
  refine ⟨?_, ?_, by norm_num⟩
  · simp only [setPaidOffDollarMobile]
    rw [if_pos (by norm_num : (0:ℚ) < (200:ℚ))]
    norm_num [min_def]
  · have harg : (1 : ℚ) / 200 * 100 = 1/2 := by norm_num
    have hr : jsRound (1/2 : ℚ) = 1 := jsRound_eq (by norm_num) (by norm_num)
    rw [harg, hr]
    norm_num [min_def, max_def]

/-- The desktop paid-off-dollar handler always stores a percentage in [0,100]. -/
theorem desktopPercent_mem (s : CalculatorInputs) (v : ℚ) :
    0 ≤ (setPaidOffDollarDesktop s v).balanceCarriedPercent ∧
      (setPaidOffDollarDesktop s v).balanceCarriedPercent ≤ 100 := by
  simp only [setPaidOffDollarDesktop]
  constructor
  · split
    · exact le_min (by norm_num) (le_max_left _ _)
    · exact le_refl 0
  · split
    · exact min_le_left _ _
    · norm_num

/-- The mobile paid-off-dollar handler stores a percentage in [0,100] only
for non-negative dollar input. -/
theorem mobilePercent_mem (s : CalculatorInputs) (v : ℚ) (hv : 0 ≤ v) :
    0 ≤ (setPaidOffDollarMobile s v).balanceCarriedPercent ∧
      (setPaidOffDollarMobile s v).balanceCarriedPercent ≤ 100 := by
  simp only [setPaidOffDollarMobile]
  constructor
  · split
    · rename_i hsp
      exact le_min (by norm_num) (mul_nonneg (div_nonneg hv (le_of_lt hsp)) (by norm_num))
    · exact le_refl 0
  · split
    · exact min_le_left _ _
    · norm_num

/-- C3 amended: the input invariant is preserved by `setMonthlySpend`, both
APR handlers, and the desktop `setPaidOffDollar` for every numeric input; the
mobile `setPaidOffDollar` preserves it only for non-negative input (see the
counterexample), and the slider's `setBalanceCarriedPercent` stores the raw
value, so it preserves the invariant only for values already in [0,100]. -/
theorem c3_invariant_preservation (s : CalculatorInputs) (v : ℚ) (h : Invariant s) :
    Invariant (setMonthlySpend s v) ∧
    Invariant (setAprDesktop s v) ∧
    Invariant (setAprMobile s v) ∧
    Invariant (setPaidOffDollarDesktop s v) ∧
    (0 ≤ v → Invariant (setPaidOffDollarMobile s v)) ∧
    (0 ≤ v → v ≤ 100 → Invariant (setBalanceCarriedPercent s v)) := by
  obtain ⟨h1, h2, h3, h4⟩ := h
  refine ⟨⟨h1, h2, le_max_left 0 v, h4⟩,
    ⟨h1, h2, h3, le_max_left 0 v⟩,
    ⟨h1, h2, h3, le_max_left 0 _⟩,
    ⟨(desktopPercent_mem s v).1, (desktopPercent_mem s v).2, h3, h4⟩,
    fun hv => ⟨(mobilePercent_mem s v hv).1, (mobilePercent_mem s v hv).2, h3, h4⟩,
    fun hv5 hv6 => ⟨hv5, hv6, h3, h4⟩⟩

/-- C3 witness: all six edit operations preserve the invariant at the default
state with input 30. -/
theorem c3_invariant_preservation_witness :
    Invariant (setMonthlySpend ⟨2000, 50, 23⟩ 30) ∧
    Invariant (setAprDesktop ⟨2000, 50, 23⟩ 30) ∧
    Invariant (setAprMobile ⟨2000, 50, 23⟩ 30) ∧
    Invariant (setPaidOffDollarDesktop ⟨2000, 50, 23⟩ 30) ∧
    Invariant (setPaidOffDollarMobile ⟨2000, 50, 23⟩ 30) ∧
    Invariant (setBalanceCarriedPercent ⟨2000, 50, 23⟩ 30) := by
  have h := c3_invariant_preservation ⟨2000, 50, 23⟩ 30
    ⟨(by norm_num : (0:ℚ) ≤ 50), (by norm_num : (50:ℚ) ≤ 100),
     (by norm_num : (0:ℚ) ≤ 2000), (by norm_num : (0:ℚ) ≤ 23)⟩
  exact ⟨h.1, h.2.1, h.2.2.1, h.2.2.2.1, h.2.2.2.2.1 (by norm_num),
    h.2.2.2.2.2 (by norm_num) (by norm_num)⟩

/-- C3 counterexample: the mobile paid-off-dollar edit violates the invariant
for negative input — from the valid state `(100, 50, 23)`, entering `-50`
dollars stores `balanceCarriedPercent = -50 ∉ [0,100]`. -/
theorem c3_invariant_preservation_counterexample :
    Invariant ⟨100, 50, 23⟩ ∧
    ¬ Invariant (setPaidOffDollarMobile ⟨100, 50, 23⟩ (-50)) := by
  constructor
  · exact ⟨(by norm_num : (0:ℚ) ≤ 50), (by norm_num : (50:ℚ) ≤ 100),
      (by norm_num : (0:ℚ) ≤ 100), (by norm_num : (0:ℚ) ≤ 23)⟩
  · intro hbad
    have hb := hbad.1
    simp only [setPaidOffDollarMobile] at hb
    rw [if_pos (by norm_num : (0:ℚ) < (100:ℚ))] at hb
    norm_num [min_def] at hb

/-- C4 amended: the two implementations of the annuity formula agree for
every nonzero annual rate: for `rate ≠ 0`,
`calculateInvestmentGrowth rate m year = some (calculateInvestmentFinalValue year rate m)`;
at `rate = 0` they diverge (see the counterexample). -/
theorem c4_formula_agreement (rate m : ℚ) (y : ℕ) (hr : rate ≠ 0) :
    calculateInvestmentGrowth rate m y = some (calculateInvestmentFinalValue y rate m) := by
  have hr' : rate / 100 / 12 ≠ 0 :=
    div_ne_zero (div_ne_zero hr (by norm_num)) (by norm_num)
  unfold calculateInvestmentGrowth calculateInvestmentFinalValue
  rw [if_neg hr',
    if_neg (show ¬ (rate = 0 ∨ rate / 100 / 12 = 0) by push_neg; exact ⟨hr, hr'⟩)]

/-- C4 witness: the two formulas agree at rate 9%, contribution 500, year 1. -/
theorem c4_formula_agreement_witness :
    calculateInvestmentGrowth 9 500 1 = some (calculateInvestmentFinalValue 1 9 500) :=
  c4_formula_agreement 9 500 1 (by norm_num)

/-- C4 counterexample: at `annualRatePercent = 0` the chart-series formula
produces NaN (`none`) while the headline function returns the rounded linear
sum 12, so the two implementations are not extensionally equal. -/
theorem c4_formula_agreement_counterexample :
    calculateInvestmentGrowth 0 1 1 = none ∧
    calculateInvestmentFinalValue 1 0 1 = 12 ∧
    calculateInvestmentGrowth 0 1 1 ≠ some (calculateInvestmentFinalValue 1 0 1) := by
  have h1 : calculateInvestmentGrowth 0 1 1 = none := by
    unfold calculateInvestmentGrowth
    rw [if_pos (by norm_num)]
  have h2 : calculateInvestmentFinalValue 1 0 1 = 12 := by
    unfold calculateInvestmentFinalValue
    rw [if_pos (Or.inl rfl)]
    have h : (1 : ℚ) * ((1 * 12 : ℕ) : ℚ) = ((12 : ℤ) : ℚ) := by push_cast; norm_num
    rw [h, jsRound_intCast]
    norm_num
  exact ⟨h1, h2, by rw [h1]; simp⟩

/-- At an integer horizon the chart loop visits exactly the years 0..n. -/
theorem chartYearList_natCast (n : ℕ) : chartYearList (n : ℚ) = List.range (n + 1) := by
  unfold chartYearList
  rw [Int.floor_natCast]
  have h : ((n : ℤ) + 1).toNat = n + 1 := by omega
  rw [h]

/-- The last element of a map over `range (k+1)` is the image of `k`. -/
theorem getLast?_map_range {α : Type} (f : ℕ → α) (k : ℕ) :
    ((List.range (k + 1)).map f).getLast? = some (f k) := by
  rw [List.range_succ, List.map_append]
  simp [List.getLast?_concat]

/-- A pointwise-monotone map over `range` is a non-decreasing list. -/
theorem chain_le_map_range (f : ℕ → ℚ) (hf : ∀ i, f i ≤ f (i + 1)) (n : ℕ) :
    List.Chain' (· ≤ ·) ((List.range n).map f) := by
  rw [List.chain'_map]
  cases n with
  | zero => simp
  | succ k =>
    rw [List.chain'_range_succ]
    intro i _
    exact hf i

/-- C6 amended: for every `n ≥ 0`, `m ≥ 0` and every NONZERO rate `r`, the
generated series has all three arrays of length `n+1`, the year axis is
exactly the strictly increasing `0..n`, the first element is `(0, 0, 0)`, and
the contributed component is non-decreasing; at `r = 0` the first compounded
value is NaN rather than 0 (see the counterexample). -/
theorem c6_series_shape (n : ℕ) (r m : ℚ) (hm : 0 ≤ m) (hr : r ≠ 0) :
    (generateChartData (n : ℚ) r m).1.length = n + 1 ∧
    (generateChartData (n : ℚ) r m).2.1.length = n + 1 ∧
    (generateChartData (n : ℚ) r m).2.2.length = n + 1 ∧
    (generateChartData (n : ℚ) r m).1 = List.range (n + 1) ∧
    (generateChartData (n : ℚ) r m).1.head? = some 0 ∧
    (generateChartData (n : ℚ) r m).2.2.head? = some 0 ∧
    (generateChartData (n : ℚ) r m).2.1.head? = some (some 0) ∧
    List.Chain' (· ≤ ·) (generateChartData (n : ℚ) r m).2.2 := by
  have hr' : r / 100 / 12 ≠ 0 :=
    div_ne_zero (div_ne_zero hr (by norm_num)) (by norm_num)
  have hg0 : calculateInvestmentGrowth r m 0 = some 0 := by
    unfold calculateInvestmentGrowth
    rw [if_neg hr']
    have h : m * (((1 + r / 100 / 12) ^ (0 * 12) - 1) / (r / 100 / 12)) = ((0 : ℤ) : ℚ) := by
      norm_num
    rw [h, jsRound_intCast]
    norm_num
  simp only [generateChartData, chartYearList_natCast]
  refine ⟨by simp, by simp, by simp, by trivial, ?_, ?_, ?_, ?_⟩
  · rw [List.range_succ_eq_map]
    rfl
  · rw [List.range_succ_eq_map]
    simp
  · rw [List.range_succ_eq_map]
    simp [hg0]
  · refine chain_le_map_range _ (fun i => ?_) (n + 1)
    push_cast
    exact mul_le_mul_of_nonneg_left (by linarith) (mul_nonneg hm (by norm_num))

/-- C6 witness: the series shape holds at `n = 2`, `r = 9`, `m = 1`. -/
theorem c6_series_shape_witness :
    (generateChartData ((2 : ℕ) : ℚ) 9 1).1.length = 2 + 1 ∧
    (generateChartData ((2 : ℕ) : ℚ) 9 1).2.1.length = 2 + 1 ∧
    (generateChartData ((2 : ℕ) : ℚ) 9 1).2.2.length = 2 + 1 ∧
    (generateChartData ((2 : ℕ) : ℚ) 9 1).1 = List.range (2 + 1) ∧
    (generateChartData ((2 : ℕ) : ℚ) 9 1).1.head? = some 0 ∧
    (generateChartData ((2 : ℕ) : ℚ) 9 1).2.2.head? = some 0 ∧
    (generateChartData ((2 : ℕ) : ℚ) 9 1).2.1.head? = some (some 0) ∧
    List.Chain' (· ≤ ·) (generateChartData ((2 : ℕ) : ℚ) 9 1).2.2 :=
  c6_series_shape 2 9 1 (by norm_num) (by norm_num)

/-- C6 counterexample: at rate 0 the first compounded value of the series is
NaN (`none`), not the claimed 0, because the series formula lacks the
zero-rate branch. -/
theorem c6_series_shape_counterexample :
    (generateChartData ((1 : ℕ) : ℚ) 0 1).2.1.head? = some none ∧
    (some none : Option (Option ℚ)) ≠ some (some 0) := by
  constructor
  · simp only [generateChartData, chartYearList_natCast, List.range_succ_eq_map]
    simp [calculateInvestmentGrowth]
  · simp

/-- C9 amended: with a non-negative contribution and a POSITIVE rate,
`totalGains` can dip below zero only by the final rounding step, and never by
more than 1/2; the claim as stated fails at rate 0, where the NaN fallback
collapses `finalValue` to 0 and `totalGains` to minus the full contribution
(see the counterexample). -/
theorem c9_total_gains (maxYears rate m : ℚ) (hm : 0 ≤ m) (hr : 0 < rate) :
    -(1/2 : ℚ) < chartTotalGains maxYears rate m := by
  have hr'pos : (0 : ℚ) < rate / 100 / 12 := by positivity
  have hr' : rate / 100 / 12 ≠ 0 := ne_of_gt hr'pos
  unfold chartTotalGains chartFinalValue chartFinalInvested generateChartData chartYearList
  rcases hN : (⌊maxYears⌋ + 1).toNat with _ | k
  · simp
  · rw [getLast?_map_range, getLast?_map_range]
    simp only [Option.getD_some]
    unfold calculateInvestmentGrowth
    rw [if_neg hr']
    simp only [Option.getD_some]
    have hbern : 1 + ((k * 12 : ℕ) : ℚ) * (rate / 100 / 12)
        ≤ (1 + rate / 100 / 12) ^ (k * 12) :=
      one_add_mul_le_pow (by linarith) (k * 12)
    have hdiv : ((k * 12 : ℕ) : ℚ)
        ≤ ((1 + rate / 100 / 12) ^ (k * 12) - 1) / (rate / 100 / 12) := by
      rw [le_div_iff₀ hr'pos]
      linarith
    have hEge : m * ((k * 12 : ℕ) : ℚ)
        ≤ m * (((1 + rate / 100 / 12) ^ (k * 12) - 1) / (rate / 100 / 12)) :=
      mul_le_mul_of_nonneg_left hdiv hm
    have hfloor : m * (((1 + rate / 100 / 12) ^ (k * 12) - 1) / (rate / 100 / 12)) - 1/2
        < ((jsRound (m * (((1 + rate / 100 / 12) ^ (k * 12) - 1) / (rate / 100 / 12))) : ℤ) : ℚ) := by
      unfold jsRound
      have h2 := Int.sub_one_lt_floor
        (m * (((1 + rate / 100 / 12) ^ (k * 12) - 1) / (rate / 100 / 12)) + 1/2)
      linarith
    have hcast : m * ((k * 12 : ℕ) : ℚ) = m * 12 * (k : ℚ) := by push_cast; ring
    linarith

/-- C9 witness: gains stay above the rounding slack at the default inputs. -/
theorem c9_total_gains_witness : -(1/2 : ℚ) < chartTotalGains 10 9 (115/6) :=
  c9_total_gains 10 9 (115/6) (by norm_num) (by norm_num)

/-- C9 counterexample: with the non-negative contribution `m = 1`, horizon 1
and rate 0, the chart's `totalGains` is `-12 < 0`: the NaN of the unguarded
series formula is collapsed to 0 by the `|| 0` fallback, while the invested
total is 12. -/
theorem c9_total_gains_counterexample :
    chartTotalGains 1 0 1 = -12 ∧ chartTotalGains 1 0 1 < 0 := by
  have h : chartTotalGains 1 0 1 = -12 := by
    unfold chartTotalGains chartFinalValue chartFinalInvested generateChartData chartYearList
    have hN : (⌊(1 : ℚ)⌋ + 1).toNat = 2 := by
      rw [Int.floor_one]
      rfl
    rw [hN]
    have hrange : List.range 2 = [0, 1] := by rfl
    rw [hrange]
    simp [calculateInvestmentGrowth]
  exact ⟨h, by rw [h]; norm_num⟩

/-- C10: the horizon is passed to the projection engine unvalidated (negative
or fractional values flow through `setTimePeriod` unchanged), and for every
`maxYears < 0` the generated series is empty while `finalValue`,
`finalInvested` and `totalGains` all resolve to 0 through the empty-array
fallbacks; the embedding is total, so no exception occurs. -/
theorem c10_unvalidated_horizon (maxYears : ℚ) (h : maxYears < 0) (rate m : ℚ)
    (inv : InvestmentInputs) (v : ℚ) :
    (setTimePeriod inv (some v)).timePeriod = some v ∧
    generateChartData maxYears rate m = ([], [], []) ∧
    chartFinalValue maxYears rate m = 0 ∧
    chartFinalInvested maxYears rate m = 0 ∧
    chartTotalGains maxYears rate m = 0 := by
  have hfl : ⌊maxYears⌋ < 0 := by
    rw [Int.floor_lt]
    push_cast
    exact h
  have hN : (⌊maxYears⌋ + 1).toNat = 0 := by omega
  have hy : chartYearList maxYears = [] := by
    unfold chartYearList
    rw [hN]
    rfl
  refine ⟨rfl, ?_, ?_, ?_, ?_⟩
  · unfold generateChartData
    rw [hy]
    rfl
  · unfold chartFinalValue generateChartData
    rw [hy]
    rfl
  · unfold chartFinalInvested generateChartData
    rw [hy]
    rfl
  · unfold chartTotalGains chartFinalValue chartFinalInvested generateChartData
    rw [hy]
    norm_num

/-- C10 witness: the negative fractional horizon `-5/2` passes through
unchanged and produces the empty series with all summary figures 0. -/
theorem c10_unvalidated_horizon_witness :
    (setTimePeriod ⟨some 10, some 9⟩ (some (-(5/2)))).timePeriod = some (-(5/2)) ∧
    generateChartData (-(5/2)) 9 (115/6) = ([], [], []) ∧
    chartFinalValue (-(5/2)) 9 (115/6) = 0 ∧
    chartFinalInvested (-(5/2)) 9 (115/6) = 0 ∧
    chartTotalGains (-(5/2)) 9 (115/6) = 0 :=
  c10_unvalidated_horizon (-(5/2)) (by norm_num) 9 (115/6) ⟨some 10, some 9⟩ (-(5/2))

end LifeSmart
